import Mathlib

/-!
Shallow embedding of `backend/progress.go` from SpotiFLAC: the download-queue
progress store, the active-count tracker, and the `ProgressWriter` byte-stream
progress sampler.

Conventions of the embedding:
* Go `float64` fields (`progress`, `speed`, `totalDownloaded`, …) are modelled
  as `ℚ`; the claims under study concern accumulation structure and control
  flow, not rounding.
* Go `int64` timestamps and byte totals are modelled as `Int`; byte counts
  returned by a sink's `Write` as `Int` (Go `int`).
* The package-level mutable globals of `progress.go` are gathered into one
  `StoreState` record; each Go function becomes a state-passing function.
  Calls to `time.Now()` become an explicit `now : Int` parameter.
* A Go `for … { if q[i].ID == id { …; break } }` loop becomes `updateFirst`.
* The side effects `SetDownloadSpeed`/`SetDownloadProgress` performed by the
  sampler are additionally recorded in an explicit event list so that
  "publishes N throughput updates" is observable.
-/

namespace SpotiFLAC

/-- Go `DownloadStatus` string constants, as an inductive type. -/
inductive DownloadStatus where
  | queued
  | downloading
  | completed
  | failed
  | skipped
deriving Repr, DecidableEq

/-- Go struct `DownloadItem`. -/
structure DownloadItem where
  id : String
  trackName : String
  artistName : String
  albumName : String
  spotifyID : String
  status : DownloadStatus
  progress : ℚ
  totalSize : ℚ
  speed : ℚ
  startTime : Int
  endTime : Int
  errorMessage : String
  filePath : String
deriving Repr, DecidableEq

/-- The package-level mutable globals of `progress.go`, gathered in a record. -/
structure StoreState where
  currentProgress : ℚ
  activeDownloads : Int
  currentSpeed : ℚ
  downloadQueue : List DownloadItem
  currentItemID : String
  totalDownloaded : ℚ
  sessionStartTime : Int
deriving Repr, DecidableEq

/-- The zero value of every global: the state of the package at startup. -/
def initState : StoreState :=
  { currentProgress := 0
    activeDownloads := 0
    currentSpeed := 0
    downloadQueue := []
    currentItemID := ""
    totalDownloaded := 0
    sessionStartTime := 0 }

/-- Go struct `ProgressInfo`. -/
structure ProgressInfo where
  isDownloading : Bool
  mbDownloaded : ℚ
  speedMBps : ℚ
deriving Repr, DecidableEq

/-- Go `GetDownloadProgress`. -/
def getDownloadProgress (s : StoreState) : ProgressInfo :=
  { isDownloading := decide (s.activeDownloads > 0)
    mbDownloaded := s.currentProgress
    speedMBps := s.currentSpeed }

/-- Go `SetDownloadSpeed`. -/
def setDownloadSpeed (mbps : ℚ) (s : StoreState) : StoreState :=
  { s with currentSpeed := mbps }

/-- Go `SetDownloadProgress`. -/
def setDownloadProgress (mbDownloaded : ℚ) (s : StoreState) : StoreState :=
  { s with currentProgress := mbDownloaded }

/-- Go `SetDownloading`: increment on `true`; on `false` decrement, and when
the decremented value is `≤ 0` clamp the count to `0` and zero the progress
and speed aggregates. -/
def setDownloading (downloading : Bool) (s : StoreState) : StoreState :=
  if downloading then
    { s with activeDownloads := s.activeDownloads + 1 }
  else
    if s.activeDownloads - 1 ≤ 0 then
      setDownloadSpeed 0 (setDownloadProgress 0
        { s with activeDownloads := 0 })
    else
      { s with activeDownloads := s.activeDownloads - 1 }

/-- The `for i := range q { if q[i].ID == id { q[i] = f(q[i]); break } }`
pattern shared by `StartDownloadItem`, `UpdateItemProgress`,
`CompleteDownloadItem`, `FailDownloadItem` and `SkipDownloadItem`: apply `f`
to the first item whose `id` matches, leave everything else unchanged. -/
def updateFirst (id : String) (f : DownloadItem → DownloadItem) :
    List DownloadItem → List DownloadItem
  | [] => []
  | it :: rest =>
      if it.id = id then f it :: rest else it :: updateFirst id f rest

/-- The `DownloadItem` literal built by Go `AddToQueue` (fields missing from
the literal get Go zero values). -/
def mkQueuedItem (id trackName artistName albumName spotifyID : String) :
    DownloadItem :=
  { id := id
    trackName := trackName
    artistName := artistName
    albumName := albumName
    spotifyID := spotifyID
    status := .queued
    progress := 0
    totalSize := 0
    speed := 0
    startTime := 0
    endTime := 0
    errorMessage := ""
    filePath := "" }

/-- Go `AddToQueue`: append a fresh `Queued` record and set
`sessionStartTime` only when it is currently `0`. -/
def addToQueue (now : Int) (id trackName artistName albumName spotifyID : String)
    (s : StoreState) : StoreState :=
  { s with
    downloadQueue :=
      s.downloadQueue ++ [mkQueuedItem id trackName artistName albumName spotifyID]
    sessionStartTime :=
      if s.sessionStartTime = 0 then now else s.sessionStartTime }

/-- Go `StartDownloadItem`: set the first matching record to `Downloading`
(startTime := now, progress := 0), then unconditionally set the current-item
cursor to `id`. -/
def startDownloadItem (now : Int) (id : String) (s : StoreState) : StoreState :=
  { s with
    downloadQueue := updateFirst id
      (fun it => { it with status := .downloading, startTime := now, progress := 0 })
      s.downloadQueue
    currentItemID := id }

/-- Go `UpdateItemProgress`. -/
def updateItemProgress (id : String) (progress speed : ℚ) (s : StoreState) :
    StoreState :=
  { s with
    downloadQueue := updateFirst id
      (fun it => { it with progress := progress, speed := speed })
      s.downloadQueue }

/-- Go `GetCurrentItemID`. -/
def getCurrentItemID (s : StoreState) : String :=
  s.currentItemID

/-- Go `CompleteDownloadItem`: mark the first matching record `Completed` and
add `finalSize` to `totalDownloaded` — the addition happens inside the loop's
match branch, so only when some record matched. -/
def completeDownloadItem (now : Int) (id filePath : String) (finalSize : ℚ)
    (s : StoreState) : StoreState :=
  { s with
    downloadQueue := updateFirst id
      (fun it => { it with
        status := .completed
        endTime := now
        filePath := filePath
        progress := finalSize
        totalSize := finalSize })
      s.downloadQueue
    totalDownloaded :=
      if s.downloadQueue.any (fun it => it.id = id) then
        s.totalDownloaded + finalSize
      else
        s.totalDownloaded }

/-- Go `FailDownloadItem`. -/
def failDownloadItem (now : Int) (id errorMsg : String) (s : StoreState) :
    StoreState :=
  { s with
    downloadQueue := updateFirst id
      (fun it => { it with status := .failed, endTime := now, errorMessage := errorMsg })
      s.downloadQueue }

/-- Go `SkipDownloadItem`. -/
def skipDownloadItem (now : Int) (id filePath : String) (s : StoreState) :
    StoreState :=
  { s with
    downloadQueue := updateFirst id
      (fun it => { it with status := .skipped, endTime := now, filePath := filePath })
      s.downloadQueue }

/-- Go `CancelAllQueuedItems`: every `Queued` record becomes `Skipped` with
`endTime := now` and `errorMessage := "Cancelled"`; the loop has no `break`,
and non-`Queued` records are not touched. -/
def cancelAllQueuedItems (now : Int) (s : StoreState) : StoreState :=
  { s with
    downloadQueue := s.downloadQueue.map (fun it =>
      if it.status = .queued then
        { it with status := .skipped, endTime := now, errorMessage := "Cancelled" }
      else it) }

/-- Go `ClearDownloadQueue`: rebuild the queue by appending, in order, every
record whose status is `Queued` or `Downloading`. -/
def clearDownloadQueue (s : StoreState) : StoreState :=
  { s with
    downloadQueue := s.downloadQueue.foldl
      (fun newQueue it =>
        if it.status = .queued ∨ it.status = .downloading then
          newQueue ++ [it]
        else newQueue)
      [] }

/-- Go `ClearAllDownloads`. -/
def clearAllDownloads (s : StoreState) : StoreState :=
  setDownloadSpeed 0 (setDownloadProgress 0
    { s with
      downloadQueue := []
      totalDownloaded := 0
      sessionStartTime := 0
      currentItemID := "" })

/-- Go `ResetSessionIfComplete`: when no record is `Queued` or `Downloading`,
zero `sessionStartTime` and `totalDownloaded`. -/
def resetSessionIfComplete (s : StoreState) : StoreState :=
  if s.downloadQueue.any
      (fun it => it.status = .queued ∨ it.status = .downloading) then
    s
  else
    { s with sessionStartTime := 0, totalDownloaded := 0 }

/-- Go struct `DownloadQueueInfo`. -/
structure DownloadQueueInfo where
  isDownloading : Bool
  queue : List DownloadItem
  currentSpeed : ℚ
  totalDownloaded : ℚ
  sessionStartTime : Int
  queuedCount : Nat
  completedCount : Nat
  failedCount : Nat
  skippedCount : Nat
deriving Repr, DecidableEq

/-- Go `GetDownloadQueue` (the `snapshot`): first runs
`ResetSessionIfComplete`, then reads everything; returns the mutated state
together with the snapshot. -/
def getDownloadQueue (s : StoreState) : StoreState × DownloadQueueInfo :=
  let s := resetSessionIfComplete s
  (s,
   { isDownloading := decide (s.activeDownloads > 0)
     queue := s.downloadQueue
     currentSpeed := s.currentSpeed
     totalDownloaded := s.totalDownloaded
     sessionStartTime := s.sessionStartTime
     queuedCount := (s.downloadQueue.filter (fun it => it.status = .queued)).length
     completedCount := (s.downloadQueue.filter (fun it => it.status = .completed)).length
     failedCount := (s.downloadQueue.filter (fun it => it.status = .failed)).length
     skippedCount := (s.downloadQueue.filter (fun it => it.status = .skipped)).length })

/-! ### The `ProgressWriter` sampler -/

/-- The outcome of one `Write` call on the wrapped sink: the byte count it
reports written and an optional error. -/
structure WriteResult where
  n : Int
  err : Option String
deriving Repr, DecidableEq

/-- A wrapped byte sink, modelled by what its `Write` returns on a given
buffer. -/
def Sink : Type := List Nat → WriteResult

/-- A sink whose every write succeeds in full: `n = len(p)`, no error. -/
def fullSink : Sink := fun p => ⟨(p.length : Int), none⟩

/-- Go struct `ProgressWriter` (without the sink pointer, which is passed to
`pwWrite` explicitly). -/
structure ProgressWriter where
  total : Int
  lastPrinted : Int
  startTime : Int
  lastTime : Int
  lastBytes : Int
  itemID : String
deriving Repr, DecidableEq

/-- Go `NewProgressWriter` at wall-clock time `now`. -/
def newProgressWriter (now : Int) : ProgressWriter :=
  { total := 0
    lastPrinted := 0
    startTime := now
    lastTime := now
    lastBytes := 0
    itemID := "" }

/-- Go `NewProgressWriterWithID`. -/
def newProgressWriterWithID (now : Int) (itemID : String) : ProgressWriter :=
  { newProgressWriter now with itemID := itemID }

/-- Go `(*ProgressWriter).GetTotal`. -/
def ProgressWriter.getTotal (pw : ProgressWriter) : Int :=
  pw.total

/-- Everything one `(*ProgressWriter).Write` call produces: the updated
writer, the updated global store, the returned `(n, err)` pair, and the list
of throughput values published via `SetDownloadSpeed` during the call (empty
or a singleton). -/
structure PWResult where
  pw : ProgressWriter
  store : StoreState
  n : Int
  err : Option String
  speedEvents : List ℚ
deriving Repr, DecidableEq

/-- Go `(*ProgressWriter).Write` at wall-clock time `now`: forward `p` to the
sink, add the reported `n` to `total`, and when `total` has advanced by at
least 256 KiB since `lastPrinted`, sample: publish speed (only when the
elapsed time is strictly positive) and progress, push them into the item's
queue record when `itemID` is set, and reset the sampling marks. -/
def pwWrite (sink : Sink) (now : Int) (p : List Nat) (pw : ProgressWriter)
    (s : StoreState) : PWResult :=
  let r := sink p
  let total := pw.total + r.n
  if total - pw.lastPrinted ≥ 256 * 1024 then
    let mbDownloaded : ℚ := (total : ℚ) / (1024 * 1024)
    let timeDiff : ℚ := ((now - pw.lastTime : Int) : ℚ) / 1000
    let bytesDiff : ℚ := ((total - pw.lastBytes : Int) : ℚ)
    let speedMBps : ℚ := if timeDiff > 0 then (bytesDiff / (1024 * 1024)) / timeDiff else 0
    let s1 := if timeDiff > 0 then setDownloadSpeed speedMBps s else s
    let events : List ℚ := if timeDiff > 0 then [speedMBps] else []
    let s2 := setDownloadProgress mbDownloaded s1
    let s3 := if pw.itemID ≠ "" then updateItemProgress pw.itemID mbDownloaded speedMBps s2 else s2
    { pw := { pw with
        total := total
        lastPrinted := total
        lastTime := now
        lastBytes := total }
      store := s3
      n := r.n
      err := r.err
      speedEvents := events }
  else
    { pw := { pw with total := total }
      store := s
      n := r.n
      err := r.err
      speedEvents := [] }

/-- Run a sequence of `Write` calls, each given as `(now, buffer)`; collect
all published throughput values in order. -/
def pwRun (sink : Sink) : List (Int × List Nat) → ProgressWriter → StoreState →
    ProgressWriter × StoreState × List ℚ
  | [], pw, s => (pw, s, [])
  | (now, p) :: ws, pw, s =>
      let r := pwWrite sink now p pw s
      let rest := pwRun sink ws r.pw r.store
      (rest.1, rest.2.1, r.speedEvents ++ rest.2.2)

/-! ### Operation traces over the store -/

/-- One call into the store, with its wall-clock argument where the Go code
reads `time.Now()`. -/
inductive StoreOp where
  | enqueue (now : Int) (id trackName artistName albumName spotifyID : String)
  | start (now : Int) (id : String)
  | update (id : String) (progress speed : ℚ)
  | complete (now : Int) (id filePath : String) (finalSize : ℚ)
  | fail (now : Int) (id errorMsg : String)
  | skip (now : Int) (id filePath : String)
  | cancelAllQueued (now : Int)
  | clearTerminal
  | clearAll
  | resetIfComplete
  | setActive (downloading : Bool)
deriving Repr, DecidableEq

/-- Apply one operation to the store. -/
def applyOp (op : StoreOp) (s : StoreState) : StoreState :=
  match op with
  | .enqueue now id tn an al sp => addToQueue now id tn an al sp s
  | .start now id => startDownloadItem now id s
  | .update id pr spd => updateItemProgress id pr spd s
  | .complete now id fp fs => completeDownloadItem now id fp fs s
  | .fail now id msg => failDownloadItem now id msg s
  | .skip now id fp => skipDownloadItem now id fp s
  | .cancelAllQueued now => cancelAllQueuedItems now s
  | .clearTerminal => clearDownloadQueue s
  | .clearAll => clearAllDownloads s
  | .resetIfComplete => resetSessionIfComplete s
  | .setActive b => setDownloading b s

/-- Run a sequence of operations left to right. -/
def runOps (ops : List StoreOp) (s : StoreState) : StoreState :=
  ops.foldl (fun s op => applyOp op s) s

/-- The id used by the concrete witness items below. -/
def idA : String := "a"

/-- A concrete `Queued` record with id `"a"`, used by witnesses. -/
def itemA : DownloadItem :=
  { id := "a", trackName := "Song", artistName := "Artist", albumName := "Album",
    spotifyID := "sid", status := .queued, progress := 0, totalSize := 0,
    speed := 0, startTime := 0, endTime := 0, errorMessage := "", filePath := "" }

/-- A concrete `Downloading` record with id `"b"`, used by witnesses. -/
def itemB : DownloadItem :=
  { id := "b", trackName := "Song2", artistName := "Artist2", albumName := "Album2",
    spotifyID := "sid2", status := .downloading, progress := 0, totalSize := 0,
    speed := 0, startTime := 0, endTime := 0, errorMessage := "", filePath := "" }

/-- A second concrete `Queued` record with the duplicate id `"a"`. -/
def itemA2 : DownloadItem :=
  { id := "a", trackName := "Dup", artistName := "Artist2", albumName := "Album2",
    spotifyID := "sid3", status := .queued, progress := 0, totalSize := 0,
    speed := 0, startTime := 0, endTime := 0, errorMessage := "", filePath := "" }

/-- A concrete file path used by witnesses. -/
def pathF : String := "/f"

/-- A store whose queue holds two records with the duplicate id `"a"`. -/
def dupQueueState : StoreState :=
  { initState with downloadQueue := [itemA, itemA2] }

/-- Run a sequence of `SetDownloading` calls (the argument of each call). -/
def runSetDownloading (bs : List Bool) (s : StoreState) : StoreState :=
  bs.foldl (fun s b => setDownloading b s) s

/-- A 300 KiB buffer (the chunk size of the sampler scenario). -/
def c2chunk : List Nat := List.replicate 307200 0

/-- The final 126,976-byte buffer completing a 1,048,576-byte stream after
three 300 KiB chunks. -/
def c2rest : List Nat := List.replicate 126976 0

/-- Rank of a status in the intended lifecycle order:
`Queued < Downloading < terminal`. -/
def statusRank : DownloadStatus → Nat
  | .queued => 0
  | .downloading => 1
  | .completed => 2
  | .failed => 2
  | .skipped => 2

/-- The operations named by the lifecycle invariant:
enqueue/start/updateProgress/complete/fail/skip/cancelAllQueued. -/
def isLifecycleOp : StoreOp → Bool
  | .enqueue .. => true
  | .start .. => true
  | .update .. => true
  | .complete .. => true
  | .fail .. => true
  | .skip .. => true
  | .cancelAllQueued .. => true
  | _ => false

/-- Recognizer for the `start` operation. -/
def isStartOp : StoreOp → Bool
  | .start .. => true
  | _ => false

/-- The record `itemB` after `CompleteDownloadItem("b", "/f", 2)`. -/
def itemBDone : DownloadItem :=
  { itemB with status := .completed, endTime := 3, filePath := "/f",
               progress := 2, totalSize := 2 }

/-- The sum, over an operation sequence run from `s`, of the `finalSize`
arguments of exactly those `complete` calls that found a matching record
in the queue at the moment of the call. -/
def completeContribution (s : StoreState) (op : StoreOp) : ℚ :=
  match op with
  | .complete _ id _ fs =>
      if s.downloadQueue.any (fun it => it.id = id) then fs else 0
  | _ => 0

def matchedCompleteSum : StoreState → List StoreOp → ℚ
  | _, [] => 0
  | s, op :: rest =>
      completeContribution s op + matchedCompleteSum (applyOp op s) rest

/-- Whether running `ops` from `s` performs no session reset: no
`clearAll`, and every `resetIfComplete` fires while some record is still
`Queued` or `Downloading` (so it does not reset). -/
def opNotReset (s : StoreState) (op : StoreOp) : Bool :=
  match op with
  | .clearAll => false
  | .resetIfComplete =>
      s.downloadQueue.any
        (fun it => it.status = .queued ∨ it.status = .downloading)
  | _ => true

def noResetOccurs : StoreState → List StoreOp → Bool
  | _, [] => true
  | s, op :: rest => opNotReset s op && noResetOccurs (applyOp op s) rest

/-! ### Helper lemmas -/

theorem updateFirst_of_nomatch (id : String) (f : DownloadItem → DownloadItem) :
    ∀ l : List DownloadItem, (∀ it ∈ l, it.id ≠ id) → updateFirst id f l = l := by
  intro l
  induction l with
  | nil => intro _; rfl
  | cons a l ih =>
      intro h
      have ha : a.id ≠ id := h a (List.mem_cons_self a l)
      simp only [updateFirst, if_neg ha]
      rw [ih (fun it hit => h it (List.mem_cons_of_mem a hit))]

theorem updateFirst_getElem?_or (id : String) (f : DownloadItem → DownloadItem) :
    ∀ (l : List DownloadItem) (i : Nat) (it it' : DownloadItem),
      l[i]? = some it → (updateFirst id f l)[i]? = some it' →
      it' = it ∨ it' = f it := by
  intro l
  induction l with
  | nil => intro i it it' h; simp at h
  | cons a l ih =>
      intro i it it' h h'
      by_cases ha : a.id = id
      · simp only [updateFirst, if_pos ha] at h'
        match i with
        | 0 =>
            simp only [List.getElem?_cons_zero, Option.some.injEq] at h h'
            exact Or.inr (by rw [← h', ← h])
        | i + 1 =>
            simp only [List.getElem?_cons_succ] at h h'
            exact Or.inl (by rw [h] at h'; exact (Option.some_inj.mp h').symm)
      · simp only [updateFirst, if_neg ha] at h'
        match i with
        | 0 =>
            simp only [List.getElem?_cons_zero, Option.some.injEq] at h h'
            exact Or.inl (by rw [← h', ← h])
        | i + 1 =>
            simp only [List.getElem?_cons_succ] at h h'
            exact ih i it it' h h'

theorem updateFirst_first_match (id : String) (f : DownloadItem → DownloadItem) :
    ∀ (l : List DownloadItem) (i : Nat) (it : DownloadItem),
      (∀ j itj, j < i → l[j]? = some itj → itj.id ≠ id) →
      l[i]? = some it → it.id = id →
      (updateFirst id f l)[i]? = some (f it) ∧
        ∀ k, k ≠ i → (updateFirst id f l)[k]? = l[k]? := by
  intro l
  induction l with
  | nil => intro i it _ h; simp at h
  | cons a l ih =>
      intro i it hbefore hit hid
      match i with
      | 0 =>
          simp only [List.getElem?_cons_zero, Option.some.injEq] at hit
          subst hit
          have ha : a.id = id := hid
          simp only [updateFirst, if_pos ha]
          refine ⟨by simp, ?_⟩
          intro k hk
          match k with
          | 0 => exact absurd rfl hk
          | k + 1 => simp [List.getElem?_cons_succ]
      | i + 1 =>
          have ha : a.id ≠ id :=
            hbefore 0 a (Nat.succ_pos i) (by simp)
          simp only [updateFirst, if_neg ha]
          simp only [List.getElem?_cons_succ] at hit
          have hb : ∀ j itj, j < i → l[j]? = some itj → itj.id ≠ id := by
            intro j itj hj hjit
            exact hbefore (j + 1) itj (Nat.succ_lt_succ hj)
              (by simpa [List.getElem?_cons_succ] using hjit)
          obtain ⟨h1, h2⟩ := ih i it hb hit hid
          refine ⟨by simpa [List.getElem?_cons_succ] using h1, ?_⟩
          intro k hk
          match k with
          | 0 => simp [List.getElem?_cons_zero]
          | k + 1 =>
              simp only [List.getElem?_cons_succ]
              exact h2 k (fun h => hk (by rw [h]))

theorem foldl_append_ite (p : DownloadItem → Prop) [DecidablePred p] :
    ∀ (l acc : List DownloadItem),
      l.foldl (fun newQueue it => if p it then newQueue ++ [it] else newQueue) acc =
        acc ++ l.filter (fun it => decide (p it)) := by
  intro l
  induction l with
  | nil => intro acc; simp
  | cons a l ih =>
      intro acc
      rw [List.foldl_cons]
      by_cases ha : p a
      · rw [if_pos ha, ih]
        simp [List.filter_cons, ha]
      · rw [if_neg ha, ih]
        simp [List.filter_cons, ha]

theorem setDownloading_nonneg (b : Bool) (s : StoreState)
    (h : 0 ≤ s.activeDownloads) : 0 ≤ (setDownloading b s).activeDownloads := by
  cases b with
  | true => simp only [setDownloading, if_pos]; omega
  | false =>
      simp only [setDownloading, Bool.false_eq_true, if_false]
      split
      · simp [setDownloadSpeed, setDownloadProgress]
      · simp only []; omega

theorem pwWrite_total_eq (sink : Sink) (now : Int) (p : List Nat)
    (pw : ProgressWriter) (s : StoreState) :
    (pwWrite sink now p pw s).pw.total = pw.total + (sink p).n := by
  simp only [pwWrite]
  split <;> rfl

/-! ### Claims -/

/-- C3 counterexample: `start` on an id that is not in the queue leaves the
queue unchanged but DOES modify the current-item cursor — on the initial
store (empty queue, empty cursor), `StartDownloadItem("x")` sets the cursor
to `"x"`, so the call is not a complete no-op on observable store state. -/
theorem c3_counterexample :
    (startDownloadItem 0 "x" initState).downloadQueue = initState.downloadQueue ∧
    getCurrentItemID initState = "" ∧
    getCurrentItemID (startDownloadItem 0 "x" initState) = "x" :=
  ⟨rfl, rfl, rfl⟩

/-- C3 (amended): for an id not present in the queue, `StartDownloadItem`
leaves the queue and every other field unchanged EXCEPT the current-item
cursor, which it unconditionally sets to `id`. -/
theorem c3_start_unknown_id_sets_cursor_only (s : StoreState) (now : Int)
    (id : String) (h : ∀ it ∈ s.downloadQueue, it.id ≠ id) :
    startDownloadItem now id s = { s with currentItemID := id } := by
  simp only [startDownloadItem, updateFirst_of_nomatch id _ s.downloadQueue h]

/-- C3 witness: the amended statement applied to the initial store. -/
theorem c3_witness :
    startDownloadItem 7 "x" initState = { initState with currentItemID := "x" } :=
  c3_start_unknown_id_sets_cursor_only initState 7 "x" (by simp [initState])

/-- C5: for every sequence of `SetDownloading` calls starting from a
non-negative active count, the count stays `≥ 0` after every call; and
whenever a decrement drives the count to `0` or below, a subsequent
`GetDownloadProgress` read returns `0` for both progress and speed. -/
theorem c5_active_count_clamped_and_reset :
    (∀ (s : StoreState) (bs : List Bool), 0 ≤ s.activeDownloads →
        0 ≤ (runSetDownloading bs s).activeDownloads) ∧
    (∀ s : StoreState, s.activeDownloads - 1 ≤ 0 →
        (getDownloadProgress (setDownloading false s)).mbDownloaded = 0 ∧
        (getDownloadProgress (setDownloading false s)).speedMBps = 0) := by
  constructor
  · intro s bs
    induction bs generalizing s with
    | nil => intro h; exact h
    | cons b bs ih =>
        intro h
        exact ih (setDownloading b s) (setDownloading_nonneg b s h)
  · intro s h
    simp [setDownloading, if_pos h, getDownloadProgress, setDownloadSpeed,
      setDownloadProgress]
    rw [if_pos (show s.activeDownloads ≤ 1 by omega)]
    exact ⟨rfl, rfl⟩

/-- C5 witness: from the initial store, the run
`[incr, decr, decr]` keeps the count at `0 ≥ 0`, and a decrement at count `0`
zeroes both aggregates as read back by `GetDownloadProgress`. -/
theorem c5_witness :
    0 ≤ (runSetDownloading [true, false, false] initState).activeDownloads ∧
    ((getDownloadProgress (setDownloading false initState)).mbDownloaded = 0 ∧
     (getDownloadProgress (setDownloading false initState)).speedMBps = 0) :=
  ⟨c5_active_count_clamped_and_reset.1 initState [true, false, false] (by decide),
   c5_active_count_clamped_and_reset.2 initState (by decide)⟩

/-- C6: `ProgressWriter.Write` returns exactly the byte count and the error
produced by the wrapped sink's `Write` on the same buffer, unmodified, in
every case. -/
theorem c6_write_forwards_sink_result (sink : Sink) (now : Int) (p : List Nat)
    (pw : ProgressWriter) (s : StoreState) :
    (pwWrite sink now p pw s).n = (sink p).n ∧
    (pwWrite sink now p pw s).err = (sink p).err := by
  simp only [pwWrite]
  split <;> exact ⟨rfl, rfl⟩

/-- C7: `CancelAllQueuedItems` maps every `Queued` record to `Skipped` with
`endTime := now` and `errorMessage := "Cancelled"`, preserves the queue
length, and leaves every non-`Queued` record unchanged in every field. -/
theorem c7_cancelAllQueued_pointwise (now : Int) (s : StoreState) :
    (cancelAllQueuedItems now s).downloadQueue.length = s.downloadQueue.length ∧
    ∀ (i : Nat) (it : DownloadItem), s.downloadQueue[i]? = some it →
      (cancelAllQueuedItems now s).downloadQueue[i]? =
        some (if it.status = .queued
              then { it with status := .skipped, endTime := now,
                             errorMessage := "Cancelled" }
              else it) := by
  constructor
  · simp [cancelAllQueuedItems]
  · intro i it h
    simp only [cancelAllQueuedItems, List.getElem?_map, h, Option.map_some']

/-- C7 witness: on a queue holding one Queued and one Downloading record,
the Queued record is cancelled and the Downloading record untouched. -/
theorem c7_witness :
    (cancelAllQueuedItems 5
        { initState with downloadQueue := [itemA, itemB] }).downloadQueue[0]? =
      some (if itemA.status = .queued
            then { itemA with status := .skipped, endTime := 5,
                              errorMessage := "Cancelled" }
            else itemA) ∧
    (cancelAllQueuedItems 5
        { initState with downloadQueue := [itemA, itemB] }).downloadQueue[1]? =
      some (if itemB.status = .queued
            then { itemB with status := .skipped, endTime := 5,
                              errorMessage := "Cancelled" }
            else itemB) :=
  ⟨(c7_cancelAllQueued_pointwise 5
      { initState with downloadQueue := [itemA, itemB] }).2 0 itemA rfl,
   (c7_cancelAllQueued_pointwise 5
      { initState with downloadQueue := [itemA, itemB] }).2 1 itemB rfl⟩

/-- C8: after `ClearDownloadQueue` the queue is exactly the filter of the
prior queue keeping the records whose status is `Queued` or `Downloading`,
in their original relative order. -/
theorem c8_clearTerminal_is_filter (s : StoreState) :
    (clearDownloadQueue s).downloadQueue =
      s.downloadQueue.filter
        (fun it => decide (it.status = .queued ∨ it.status = .downloading)) := by
  simp only [clearDownloadQueue]
  rw [foldl_append_ite (fun it => it.status = .queued ∨ it.status = .downloading)
    s.downloadQueue []]
  simp

/-- C10: the sampler adds exactly the byte count the sink reports — not the
buffer length — to its running total, so `GetTotal` always equals the initial
total plus the sum of the sink-reported counts over all writes, including
short or failed ones. -/
theorem c10_total_is_sum_of_sink_counts :
    (∀ (sink : Sink) (now : Int) (p : List Nat) (pw : ProgressWriter)
        (s : StoreState),
      (pwWrite sink now p pw s).pw.getTotal = pw.getTotal + (sink p).n) ∧
    (∀ (sink : Sink) (ws : List (Int × List Nat)) (pw : ProgressWriter)
        (s : StoreState),
      (pwRun sink ws pw s).1.getTotal =
        pw.getTotal + (ws.map (fun w => (sink w.2).n)).sum) := by
  constructor
  · intro sink now p pw s
    exact pwWrite_total_eq sink now p pw s
  · intro sink ws
    induction ws with
    | nil => intro pw s; simp [pwRun, ProgressWriter.getTotal]
    | cons w ws ih =>
        intro pw s
        obtain ⟨now, p⟩ := w
        simp only [pwRun, List.map_cons, List.sum_cons]
        rw [ih]
        have h := pwWrite_total_eq sink now p pw s
        simp only [ProgressWriter.getTotal] at h ⊢
        rw [h]
        ring

set_option maxRecDepth 8000 in
/-- A 1,048,576-byte stream written as three 307,200-byte chunks plus a
126,976-byte remainder, with fully succeeding writes and strictly increasing
sample times, publishes a throughput update on each of the first three writes
and none on the last. -/
theorem pwRun_mib_in_300KiB_chunks_publishes (sink : Sink) (p q : List Nat)
    (t0 t1 t2 t3 t4 : Int)
    (hsp : sink p = ⟨307200, none⟩) (hsq : sink q = ⟨126976, none⟩)
    (h1 : t0 < t1) (h2 : t1 < t2) (h3 : t2 < t3) :
    (pwRun sink [(t1, p), (t2, p), (t3, p), (t4, q)]
      (newProgressWriter t0) initState).2.2.length = 3 := by
  have ht1 : ((t1 - t0 : Int) : ℚ) / 1000 > 0 := by
    apply div_pos
    · exact_mod_cast Int.sub_pos.mpr h1
    · norm_num
  have ht2 : ((t2 - t1 : Int) : ℚ) / 1000 > 0 := by
    apply div_pos
    · exact_mod_cast Int.sub_pos.mpr h2
    · norm_num
  have ht3 : ((t3 - t2 : Int) : ℚ) / 1000 > 0 := by
    apply div_pos
    · exact_mod_cast Int.sub_pos.mpr h3
    · norm_num
  simp only [pwRun, pwWrite, hsp, hsq, newProgressWriter, initState]
  norm_num [setDownloadSpeed, setDownloadProgress, ht1, ht2, ht3]
  simp [h1, h2, h3]

/-- C2 counterexample: on the 1,048,576-byte stream in 300 KiB chunks with
fully succeeding writes and strictly positive inter-sample times, the sampler
publishes THREE throughput updates (one per 300 KiB chunk — each chunk alone
exceeds the 256 KiB threshold), not one. -/
theorem c2_counterexample :
    (pwRun fullSink [(1, c2chunk), (2, c2chunk), (3, c2chunk), (4, c2rest)]
        (newProgressWriter 0) initState).2.2.length = 3 ∧
    (pwRun fullSink [(1, c2chunk), (2, c2chunk), (3, c2chunk), (4, c2rest)]
        (newProgressWriter 0) initState).2.2.length ≠ 1 := by
  have hf1 : fullSink c2chunk = ⟨307200, none⟩ := by
    rw [fullSink, c2chunk, List.length_replicate]; norm_num
  have hf2 : fullSink c2rest = ⟨126976, none⟩ := by
    rw [fullSink, c2rest, List.length_replicate]; norm_num
  have h := pwRun_mib_in_300KiB_chunks_publishes fullSink c2chunk c2rest
    0 1 2 3 4 hf1 hf2 (by norm_num) (by norm_num) (by norm_num)
  exact ⟨h, by rw [h]; norm_num⟩

/-- C2 (amended): a Progress Sampler fed a 1,048,576-byte stream in 300 KiB
(307,200-byte) chunks, where each underlying write succeeds in full and each
inter-sample elapsed time is strictly positive, publishes exactly THREE
throughput updates to the shared current-speed aggregate before the stream
completes (the final sub-threshold chunk publishes none). -/
theorem c2_three_throughput_updates (sink : Sink) (p q : List Nat)
    (t0 t1 t2 t3 t4 : Int)
    (hp : p.length = 307200) (hq : q.length = 126976)
    (hsp : sink p = ⟨(p.length : Int), none⟩)
    (hsq : sink q = ⟨(q.length : Int), none⟩)
    (h1 : t0 < t1) (h2 : t1 < t2) (h3 : t2 < t3) :
    (pwRun sink [(t1, p), (t2, p), (t3, p), (t4, q)]
      (newProgressWriter t0) initState).2.2.length = 3 := by
  refine pwRun_mib_in_300KiB_chunks_publishes sink p q t0 t1 t2 t3 t4 ?_ ?_ h1 h2 h3
  · rw [hsp, hp]; norm_num
  · rw [hsq, hq]; norm_num

/-- C2 witness: the amended statement at the concrete stream
`[300 KiB, 300 KiB, 300 KiB, 124 KiB]` with times `0 < 1 < 2 < 3`. -/
theorem c2_witness :
    (pwRun fullSink [(1, c2chunk), (2, c2chunk), (3, c2chunk), (4, c2rest)]
      (newProgressWriter 0) initState).2.2.length = 3 :=
  c2_three_throughput_updates fullSink c2chunk c2rest 0 1 2 3 4
    (by rw [c2chunk, List.length_replicate])
    (by rw [c2rest, List.length_replicate])
    rfl rfl (by norm_num) (by norm_num) (by norm_num)

/-- C9: `AddToQueue` appends unconditionally — no id-uniqueness check — so a
duplicate id yields a second record; and every id-keyed mutating operation
(`StartDownloadItem`, `UpdateItemProgress`, `CompleteDownloadItem`,
`FailDownloadItem`, `SkipDownloadItem`) mutates only the first record in
insertion order whose id matches, leaving every other position — in
particular later duplicates of the same id — unchanged. -/
theorem c9_enqueue_appends_and_id_ops_hit_first_match :
    (∀ (now : Int) (id tn an al sp : String) (s : StoreState),
      (addToQueue now id tn an al sp s).downloadQueue =
        s.downloadQueue ++ [mkQueuedItem id tn an al sp]) ∧
    (∀ (s : StoreState) (id : String) (i : Nat) (it : DownloadItem),
      (∀ j itj, j < i → s.downloadQueue[j]? = some itj → itj.id ≠ id) →
      s.downloadQueue[i]? = some it → it.id = id →
      ((∀ now : Int,
          (startDownloadItem now id s).downloadQueue[i]? =
            some { it with status := .downloading, startTime := now,
                           progress := 0 } ∧
          ∀ k, k ≠ i → (startDownloadItem now id s).downloadQueue[k]? =
            s.downloadQueue[k]?) ∧
       (∀ (pr spd : ℚ),
          (updateItemProgress id pr spd s).downloadQueue[i]? =
            some { it with progress := pr, speed := spd } ∧
          ∀ k, k ≠ i → (updateItemProgress id pr spd s).downloadQueue[k]? =
            s.downloadQueue[k]?) ∧
       (∀ (now : Int) (fp : String) (fs : ℚ),
          (completeDownloadItem now id fp fs s).downloadQueue[i]? =
            some { it with status := .completed, endTime := now,
                           filePath := fp, progress := fs, totalSize := fs } ∧
          ∀ k, k ≠ i → (completeDownloadItem now id fp fs s).downloadQueue[k]? =
            s.downloadQueue[k]?) ∧
       (∀ (now : Int) (msg : String),
          (failDownloadItem now id msg s).downloadQueue[i]? =
            some { it with status := .failed, endTime := now,
                           errorMessage := msg } ∧
          ∀ k, k ≠ i → (failDownloadItem now id msg s).downloadQueue[k]? =
            s.downloadQueue[k]?) ∧
       (∀ (now : Int) (fp : String),
          (skipDownloadItem now id fp s).downloadQueue[i]? =
            some { it with status := .skipped, endTime := now,
                           filePath := fp } ∧
          ∀ k, k ≠ i → (skipDownloadItem now id fp s).downloadQueue[k]? =
            s.downloadQueue[k]?))) := by
  constructor
  · intro now id tn an al sp s
    rfl
  · intro s id i it hb hit hid
    refine ⟨?_, ?_, ?_, ?_, ?_⟩
    · intro now
      simpa only [startDownloadItem] using
        updateFirst_first_match id
          (fun it => { it with status := .downloading, startTime := now,
                               progress := 0 })
          s.downloadQueue i it hb hit hid
    · intro pr spd
      simpa only [updateItemProgress] using
        updateFirst_first_match id
          (fun it => { it with progress := pr, speed := spd })
          s.downloadQueue i it hb hit hid
    · intro now fp fs
      simpa only [completeDownloadItem] using
        updateFirst_first_match id
          (fun it => { it with status := .completed, endTime := now,
                               filePath := fp, progress := fs, totalSize := fs })
          s.downloadQueue i it hb hit hid
    · intro now msg
      simpa only [failDownloadItem] using
        updateFirst_first_match id
          (fun it => { it with status := .failed, endTime := now,
                               errorMessage := msg })
          s.downloadQueue i it hb hit hid
    · intro now fp
      simpa only [skipDownloadItem] using
        updateFirst_first_match id
          (fun it => { it with status := .skipped, endTime := now,
                               filePath := fp })
          s.downloadQueue i it hb hit hid

/-- C9 witness: on a queue holding two records with id `"a"`, an
`updateProgress` and a `skip` keyed to `"a"` each rewrite position 0 and
leave position 1 (the later duplicate) unchanged. -/
theorem c9_witness :
    ((updateItemProgress idA 5 1 dupQueueState).downloadQueue[0]? =
      some { itemA with progress := 5, speed := 1 }) ∧
    ((updateItemProgress idA 5 1 dupQueueState).downloadQueue[1]? =
      dupQueueState.downloadQueue[1]?) ∧
    ((skipDownloadItem 9 idA pathF dupQueueState).downloadQueue[0]? =
      some { itemA with status := .skipped, endTime := 9, filePath := pathF }) ∧
    ((skipDownloadItem 9 idA pathF dupQueueState).downloadQueue[1]? =
      dupQueueState.downloadQueue[1]?) := by
  have H := c9_enqueue_appends_and_id_ops_hit_first_match.2
    dupQueueState idA 0 itemA
    (fun j _ hj _ => absurd hj (Nat.not_lt_zero j)) rfl rfl
  exact ⟨(H.2.1 5 1).1, (H.2.1 5 1).2 1 (by decide),
         (H.2.2.2.2 9 pathF).1, (H.2.2.2.2 9 pathF).2 1 (by decide)⟩

theorem statusRank_le_two (st : DownloadStatus) : statusRank st ≤ 2 := by
  cases st <;> simp [statusRank]

/-- C1 counterexample: statuses are NOT single-shot monotonic — after
`enqueue("a"); complete("a")` the record is `Completed`, yet a further
`start("a")` moves it back to `Downloading`: a record in a terminal state
returns to `Downloading`. -/
theorem c1_counterexample :
    ((runOps [.enqueue 0 "a" "Song" "Artist" "Album" "sid",
              .complete 1 "a" "/out/a.mp3" 3] initState).downloadQueue.map
        DownloadItem.status = [.completed]) ∧
    ((runOps [.enqueue 0 "a" "Song" "Artist" "Album" "sid",
              .complete 1 "a" "/out/a.mp3" 3,
              .start 2 "a"] initState).downloadQueue.map
        DownloadItem.status = [.downloading]) := by
  exact ⟨rfl, rfl⟩

/-- C1 (amended): among enqueue/start/updateProgress/complete/fail/skip/
cancelAllQueued, no operation ever returns an existing record to `Queued`,
and every operation except `start` never lowers a record's status in the
order `Queued < Downloading < terminal`; `start`, however, unconditionally
sets the first matching record to `Downloading`, even from a terminal
state, so the store does not enforce single-shot monotonic transitions. -/
theorem c1_status_never_regresses_except_start (op : StoreOp) (s : StoreState)
    (i : Nat) (it it' : DownloadItem)
    (hop : isLifecycleOp op = true)
    (h : s.downloadQueue[i]? = some it)
    (h' : (applyOp op s).downloadQueue[i]? = some it') :
    (it.status ≠ .queued → it'.status ≠ .queued) ∧
    (isStartOp op = false → statusRank it.status ≤ statusRank it'.status) := by
  cases op with
  | enqueue now id tn an al sp =>
      have hlen : i < s.downloadQueue.length := by
        by_contra hc
        push_neg at hc
        rw [List.getElem?_eq_none hc] at h
        cases h
      simp only [applyOp, addToQueue] at h'
      rw [List.getElem?_append, if_pos hlen] at h'
      rw [h] at h'
      obtain rfl := Option.some_inj.mp h'
      exact ⟨fun hq => hq, fun _ => le_refl _⟩
  | start now id =>
      simp only [applyOp, startDownloadItem] at h'
      rcases updateFirst_getElem?_or id _ s.downloadQueue i it it' h h' with rfl | rfl
      · exact ⟨fun hq => hq, fun _ => le_refl _⟩
      · constructor
        · intro _
          simp
        · intro hf
          exact absurd hf (by simp [isStartOp])
  | update id pr spd =>
      simp only [applyOp, updateItemProgress] at h'
      rcases updateFirst_getElem?_or id _ s.downloadQueue i it it' h h' with rfl | rfl
      · exact ⟨fun hq => hq, fun _ => le_refl _⟩
      · exact ⟨fun hq => hq, fun _ => le_refl _⟩
  | complete now id fp fs =>
      simp only [applyOp, completeDownloadItem] at h'
      rcases updateFirst_getElem?_or id _ s.downloadQueue i it it' h h' with rfl | rfl
      · exact ⟨fun hq => hq, fun _ => le_refl _⟩
      · constructor
        · intro _
          simp
        · intro _
          exact statusRank_le_two it.status
  | fail now id msg =>
      simp only [applyOp, failDownloadItem] at h'
      rcases updateFirst_getElem?_or id _ s.downloadQueue i it it' h h' with rfl | rfl
      · exact ⟨fun hq => hq, fun _ => le_refl _⟩
      · constructor
        · intro _
          simp
        · intro _
          exact statusRank_le_two it.status
  | skip now id fp =>
      simp only [applyOp, skipDownloadItem] at h'
      rcases updateFirst_getElem?_or id _ s.downloadQueue i it it' h h' with rfl | rfl
      · exact ⟨fun hq => hq, fun _ => le_refl _⟩
      · constructor
        · intro _
          simp
        · intro _
          exact statusRank_le_two it.status
  | cancelAllQueued now =>
      simp only [applyOp, cancelAllQueuedItems, List.getElem?_map, h,
        Option.map_some'] at h'
      have heq := Option.some_inj.mp h'
      by_cases hq : it.status = .queued
      · rw [if_pos hq] at heq
        subst heq
        exact ⟨fun hqq => absurd hq hqq, fun _ => by rw [hq]; exact statusRank_le_two _⟩
      · rw [if_neg hq] at heq
        subst heq
        exact ⟨fun hqq => hqq, fun _ => le_refl _⟩
  | clearTerminal => simp [isLifecycleOp] at hop
  | clearAll => simp [isLifecycleOp] at hop
  | resetIfComplete => simp [isLifecycleOp] at hop
  | setActive b => simp [isLifecycleOp] at hop

/-- C1 witness: completing the `Downloading` record `itemB` keeps it out of
`Queued` and does not lower its status rank. -/
theorem c1_witness :
    (itemB.status ≠ .queued → itemBDone.status ≠ .queued) ∧
    (isStartOp (.complete 3 "b" "/f" 2) = false →
      statusRank itemB.status ≤ statusRank itemBDone.status) :=
  c1_status_never_regresses_except_start (.complete 3 "b" "/f" 2)
    { initState with downloadQueue := [itemB] } 0 itemB itemBDone rfl rfl rfl

/-- C4 counterexample: a `complete` call whose id matches no record adds
nothing to `totalDownloaded` — after a reset (`clearAll`),
`complete("x", …, 5)` on the empty queue leaves `totalDownloaded` at `0`,
not at the sum `5` of the `finalSize` arguments of every complete call. -/
theorem c4_counterexample :
    (runOps [.clearAll, .complete 0 "x" "/f" 5] initState).totalDownloaded = 0 ∧
    (runOps [.clearAll, .complete 0 "x" "/f" 5] initState).totalDownloaded ≠ 5 :=
  ⟨rfl, by decide⟩

/-- C4 (amended): since the last reset, `totalDownloaded` grows by exactly
the sum of the `finalSize` arguments of the `complete` calls that found a
matching record (a `complete` on an unknown id adds nothing), and neither
`fail` nor `skip` ever changes `totalDownloaded`. -/
theorem c4_totalDownloaded_accounting :
    (∀ (s : StoreState) (ops : List StoreOp), noResetOccurs s ops = true →
        (runOps ops s).totalDownloaded =
          s.totalDownloaded + matchedCompleteSum s ops) ∧
    (∀ (s : StoreState) (now : Int) (id msg fp : String),
        (failDownloadItem now id msg s).totalDownloaded = s.totalDownloaded ∧
        (skipDownloadItem now id fp s).totalDownloaded = s.totalDownloaded) := by
  constructor
  · intro s ops
    induction ops generalizing s with
    | nil => intro _; simp [runOps, matchedCompleteSum]
    | cons op rest ih =>
        intro hno
        rw [noResetOccurs, Bool.and_eq_true] at hno
        obtain ⟨hhead, htail⟩ := hno
        have hrun : runOps (op :: rest) s = runOps rest (applyOp op s) := rfl
        rw [hrun, ih (applyOp op s) htail, matchedCompleteSum]
        have hop : (applyOp op s).totalDownloaded =
            s.totalDownloaded + completeContribution s op := by
          cases op with
          | complete now id fp fs =>
              simp only [applyOp, completeDownloadItem, completeContribution]
              split_ifs <;> simp
          | clearAll => simp [opNotReset] at hhead
          | resetIfComplete =>
              simp only [opNotReset] at hhead
              simp only [applyOp, resetSessionIfComplete, if_pos hhead,
                completeContribution]
              simp
          | enqueue now id tn an al sp =>
              simp [applyOp, addToQueue, completeContribution]
          | start now id => simp [applyOp, startDownloadItem, completeContribution]
          | update id pr spd =>
              simp [applyOp, updateItemProgress, completeContribution]
          | fail now id msg => simp [applyOp, failDownloadItem, completeContribution]
          | skip now id fp => simp [applyOp, skipDownloadItem, completeContribution]
          | cancelAllQueued now =>
              simp [applyOp, cancelAllQueuedItems, completeContribution]
          | clearTerminal => simp [applyOp, clearDownloadQueue, completeContribution]
          | setActive b =>
              simp only [applyOp, setDownloading, completeContribution]
              split_ifs <;> simp [setDownloadSpeed, setDownloadProgress]
        rw [hop]
        ring
  · intro s now id msg fp
    exact ⟨rfl, rfl⟩

/-- C4 witness: one matched `complete` adds exactly its `finalSize`. -/
theorem c4_witness :
    (runOps [.complete 2 "a" "/f" 3]
        { initState with downloadQueue := [itemA] }).totalDownloaded =
      ({ initState with downloadQueue := [itemA] } : StoreState).totalDownloaded +
        matchedCompleteSum { initState with downloadQueue := [itemA] }
          [.complete 2 "a" "/f" 3] :=
  c4_totalDownloaded_accounting.1 { initState with downloadQueue := [itemA] }
    [.complete 2 "a" "/f" 3] (by decide)

end SpotiFLAC
